import Mathlib

set_option maxRecDepth 8000

/-!
Verification development for the document-review application (src/main.py and
src/app.py).  The Python sources are shallowly embedded below: pure string
manipulation is translated to executable functions over `String` / `List Char`,
network and language-model interaction is abstracted into oracle functions
passed as arguments, and every place that issues an outbound request records
that request in an explicit list so that "performs no network call" claims are
statable.  Python `datetime` timestamps are modelled as integers (seconds).
-/

namespace DocManage

/-! ## Basic text utilities (models of Python string/regex primitives) -/

/-- Model of the character class `\s` of Python's `re` on ASCII text:
space, tab, newline, carriage return, vertical tab, form feed. -/
def pySpace (c : Char) : Bool :=
  c == ' ' || c == '\t' || c == '\n' || c == '\r' ||
  c == Char.ofNat 11 || c == Char.ofNat 12

/-- Model of the character class `\w` (`[A-Za-z0-9_]` plus letters) on ASCII text. -/
def wordChar (c : Char) : Bool := c.isAlphanum || c == '_'

/-- Model of Python `str.lower()` (character-wise, faithful on ASCII). -/
def lowerData (s : String) : List Char := s.data.map Char.toLower

/-- Model of Python `str.lower()` returning a `String`. -/
def lowerStr (s : String) : String := String.mk (lowerData s)

/-- Model of Python slicing `s[:n]`. -/
def takeStr (n : Nat) (s : String) : String := String.mk (s.data.take n)

/-- Model of the Python substring test `needle in hay`. -/
def containsSub (needle : List Char) : List Char → Bool
  | [] => needle.isEmpty
  | c :: cs => needle.isPrefixOf (c :: cs) || containsSub needle cs

/-- `needle in hay` on `String`s. -/
def strContains (needle hay : String) : Bool := containsSub needle.data hay.data

/-- Word counting, model of Python `len(s.split())`: number of maximal runs of
non-whitespace characters.  The flag records whether the previous character was
part of a word. -/
def countWordsGo : Bool → List Char → Nat
  | _, [] => 0
  | inWord, c :: cs =>
    if pySpace c then countWordsGo false cs
    else (if inWord then 0 else 1) + countWordsGo true cs

/-- `len(s.split())` for a chunk of characters. -/
def wordCount (s : List Char) : Nat := countWordsGo false s

/-! ## URL extraction (model of `re.findall(r'https?://[^\s\)\]\x7d">]+', text)`
from `run_link_validation` in src/main.py) -/

/-- Characters excluded by the URL regex's negated class: whitespace, `)`,
`]`, the closing brace, `"` and `>`. -/
def urlStopChar (c : Char) : Bool :=
  pySpace c || c == ')' || c == ']' || c == Char.ofNat 125 || c == '"' || c == '>'

def httpsSchemeChars : List Char := ['h', 't', 't', 'p', 's', ':', '/', '/']

def httpSchemeChars : List Char := ['h', 't', 't', 'p', ':', '/', '/']

/-- Try to match the URL regex exactly at the head of `cs`; on success return
the matched characters and the remaining input.  Mirrors the regex
`https?://[^...]+`: the scheme with optional `s` (greedy, with the backtracking
the regex engine performs), then one or more non-stop characters. -/
def matchUrlAt (cs : List Char) : Option (List Char × List Char) :=
  if httpsSchemeChars.isPrefixOf cs then
    let body := (cs.drop 8).takeWhile (fun c => !urlStopChar c)
    if body.isEmpty then none
    else some (httpsSchemeChars ++ body, (cs.drop 8).drop body.length)
  else if httpSchemeChars.isPrefixOf cs then
    let body := (cs.drop 7).takeWhile (fun c => !urlStopChar c)
    if body.isEmpty then none
    else some (httpSchemeChars ++ body, (cs.drop 7).drop body.length)
  else none

/-- Left-to-right scan collecting non-overlapping regex matches, as
`re.findall` does.  Fuel-indexed (each step consumes at least one character, so
`length` fuel suffices). -/
def findAllUrlsGo : Nat → List Char → List (List Char)
  | 0, _ => []
  | _ + 1, [] => []
  | fuel + 1, c :: cs =>
    match matchUrlAt (c :: cs) with
    | some (m, rest) => m :: findAllUrlsGo fuel rest
    | none => findAllUrlsGo fuel cs

/-- `re.findall(url_pattern, document_text)`. -/
def findAllUrls (text : String) : List String :=
  (findAllUrlsGo text.data.length text.data).map String.mk

/-! ## URL parsing (model of `urllib.parse.urlparse` restricted to the
HTTP(S) URLs this program feeds it) -/

structure UrlParts where
  scheme : String
  netloc : String
  path : String
deriving DecidableEq

/-- `urlparse` for `http(s)` URLs: netloc runs to the first `/`, `?` or `#`
after the scheme, path runs from there to the first `?` or `#`.  Inputs without
an `http(s)://` scheme get an empty netloc and the whole input (up to `?`/`#`)
as path, as in Python. -/
def urlparse (u : String) : UrlParts :=
  let d := u.data
  let parseRest := fun (sch : String) (rest : List Char) =>
    let netloc := rest.takeWhile (fun c => !(c == '/' || c == '?' || c == '#'))
    let after := rest.drop netloc.length
    let path := after.takeWhile (fun c => !(c == '?' || c == '#'))
    UrlParts.mk sch (String.mk netloc) (String.mk path)
  if httpsSchemeChars.isPrefixOf d then parseRest "https" (d.drop 8)
  else if httpSchemeChars.isPrefixOf d then parseRest "http" (d.drop 7)
  else UrlParts.mk "" "" (String.mk (d.takeWhile (fun c => !(c == '?' || c == '#'))))

/-! ## Link validator (src/main.py, `run_link_validation` and its inner
helpers `check_single_link`, `suggest_404_fixes`, `suggest_error_fixes`) -/

/-- Outcome of the `urllib.request.urlopen` call for one URL, abstracting the
network: either the request returned (with `getcode()`), or it raised
`urllib.error.HTTPError` with a status code, or it raised some other exception
whose `str(e)` is recorded. -/
inductive FetchOutcome where
  | success (status : Nat)
  | httpError (code : Nat)
  | otherError (msg : String)
deriving DecidableEq

/-- The `"code"` field of a link-check result: an HTTP status or the literal
string `"ERROR"`. -/
inductive HttpCode where
  | num (code : Nat)
  | error
deriving DecidableEq

/-- One entry of the link validator's per-URL output dictionary. -/
structure LinkCheckResult where
  url : String
  status : String
  code : HttpCode
  suggestion : Option String
deriving DecidableEq

/-- The condition `'docs.' in domain or 'documentation.' in domain or
'wiki.' in domain` of `suggest_404_fixes`. -/
def docsSiteCond (domain : String) : Bool :=
  strContains "docs." domain || strContains "documentation." domain ||
  strContains "wiki." domain

/-- The condition `'/api/' in path or '/v1/' in path or '/v2/' in path or
'/rest/' in path` of `suggest_404_fixes`. -/
def apiPathCond (path : String) : Bool :=
  strContains "/api/" path || strContains "/v1/" path ||
  strContains "/v2/" path || strContains "/rest/" path

def sugMoved : String :=
  "• Repository may have moved - check if it was renamed or transferred"

def sugBranch : String := "• Branch may have changed (master → main)"

def sugTryArchive (url : String) : String :=
  "• Try archive: https://web.archive.org/web/" ++ url

def sugRestructured : String :=
  "• Documentation may have been restructured - check site\u0027s search"

def sugRemoveVersions : String := "• Try removing version numbers from URL path"

def sugApiVersion : String :=
  "• API version may have changed - check for newer versions"

def sugDeprecated : String :=
  "• Endpoint may have been deprecated - check API changelog"

def sugManual (url : String) : String :=
  "• Check site manually: " ++ (urlparse url).scheme ++ "://" ++ (urlparse url).netloc

def sugSearchArchive (url : String) : String :=
  "• Search archive: https://web.archive.org/web/" ++ url

/-- The `suggestions` list built by `suggest_404_fixes` before joining:
GitHub branch first (blob hints only when the path has `/blob/`, archive hint
always), otherwise documentation sites, otherwise API paths; the two general
suggestions are appended in every case. -/
def suggest_404_list (url : String) : List String :=
  let domain := (urlparse url).netloc
  let path := (urlparse url).path
  (if strContains "github.com" domain then
     (if strContains "/blob/" path then [sugMoved, sugBranch] else [])
       ++ [sugTryArchive url]
   else if docsSiteCond domain then [sugRestructured, sugRemoveVersions]
   else if apiPathCond path then [sugApiVersion, sugDeprecated]
   else [])
  ++ [sugManual url, sugSearchArchive url]

/-- `suggest_404_fixes(url)`: the joined suggestion text (the fallback string
is kept from the source even though the list is never empty). -/
def suggest_404_fixes (url : String) : String :=
  let s := suggest_404_list url
  if s.isEmpty then "Consider removing or finding an alternative"
  else String.intercalate "\n" s

/-- `suggest_error_fixes(url, error_msg)`: remediation keyed on substrings of
the exception message, in source order (SSL/certificate, then DNS, then
connection refused, then generic). -/
def suggest_error_fixes (url errorMsg : String) : String :=
  if strContains "SSL" errorMsg || strContains "certificate" (lowerStr errorMsg) then
    "SSL certificate issue - site may be misconfigured or unsafe"
  else if strContains "Name or service not known" errorMsg || strContains "DNS" errorMsg then
    "Domain no longer exists - find alternative or remove link"
  else if strContains "Connection refused" errorMsg then
    "Server is down - check if this is temporary or permanent"
  else
    "Network error - verify URL is correct"

/-- `check_single_link(url)` given the network outcome for that URL. -/
def check_single_link (url : String) (outcome : FetchOutcome) : LinkCheckResult :=
  match outcome with
  | .success status =>
    if status = 200 then
      ⟨url, "✅ Working", .num status, none⟩
    else
      ⟨url, "⚠️ HTTP " ++ toString status, .num status,
        some "Check if this is the intended behavior"⟩
  | .httpError code =>
    if code = 404 then
      ⟨url, "❌ Not Found (404)", .num 404, some (suggest_404_fixes url)⟩
    else if code = 401 ∨ code = 403 then
      ⟨url, "🔒 Access Restricted (" ++ toString code ++ ")", .num code,
        some "Verify if authentication is required or if link should be public"⟩
    else
      ⟨url, "❌ HTTP " ++ toString code, .num code,
        some "Check server status or find alternative"⟩
  | .otherError msg =>
    ⟨url, "❌ Error: " ++ takeStr 50 msg, .error, some (suggest_error_fixes url msg)⟩

/-- The classification test `result["status"].startswith("✅")` used to put a
result into `working_links` rather than `issues`. -/
def isWorkingResult (r : LinkCheckResult) : Bool :=
  ("✅" : String).data.isPrefixOf r.status.data

/-- The per-URL results, in document order (the loop `for url in urls`). -/
def linkResults (net : String → FetchOutcome) (urls : List String) : List LinkCheckResult :=
  urls.map (fun u => check_single_link u (net u))

/-- `working_links` accumulated by the loop. -/
def workingLinks (net : String → FetchOutcome) (urls : List String) : List LinkCheckResult :=
  (linkResults net urls).filter isWorkingResult

/-- `issues` accumulated by the loop. -/
def linkIssues (net : String → FetchOutcome) (urls : List String) : List LinkCheckResult :=
  (linkResults net urls).filter (fun r => !isWorkingResult r)

/-- A phase-1 agent's return dictionary: `{"agent": ..., "findings": ...}` on
success or `{"agent": ..., "error": ...}` on failure (a sum, never both). -/
inductive AgentReport where
  | ok (agent : String) (findings : String)
  | err (agent : String) (error : String)
deriving DecidableEq

/-- The formatted block the validator emits for one issue. -/
def issueBlock (r : LinkCheckResult) : String :=
  "**" ++ r.status ++ "**\n" ++ "URL: `" ++ r.url ++ "`\n" ++
  (match r.suggestion with
   | some s => if s.isEmpty then "" else "💡 **Suggestion:** " ++ s ++ "\n"
   | none => "") ++ "\n"

/-- The `findings` string assembled by `run_link_validation` when links exist. -/
def linkFindings (urls : List String) (working issues : List LinkCheckResult) : String :=
  "**Link Validation Report** (" ++ toString urls.length ++ " links checked)\n\n"
  ++ (if working.isEmpty then ""
      else "✅ **" ++ toString working.length ++ " working links** - No action needed\n\n")
  ++ (if issues.isEmpty then ""
      else "⚠️ **" ++ toString issues.length ++ " links need attention:**\n\n"
        ++ String.join (issues.map issueBlock))
  ++ (if issues.isEmpty then "🎉 **All links are working perfectly!**" else "")

def noLinksFindings : String := "✅ **No external links found** - Nothing to validate."

/-- `run_link_validation(document_text, ...)` given a network oracle.  The
second component records which URLs were actually requested over the network
(empty when the extraction finds nothing, so no network call is made). -/
def run_link_validation (net : String → FetchOutcome) (text : String) :
    AgentReport × List String :=
  let urls := findAllUrls text
  if urls.isEmpty then
    (.ok "Link Validator" noLinksFindings, [])
  else
    (.ok "Link Validator" (linkFindings urls (workingLinks net urls) (linkIssues net urls)),
     urls)

/-! ## Heuristic checker, variant 1: `quick_analysis` (src/main.py) and
variant 2: `analyze_technical_writing_issues` (src/app.py).  All regexes are
compiled with `re.IGNORECASE`, modelled by scanning the lowercased text. -/

/-- Generic `re.search` model: does the position predicate hold at some suffix
(including the empty suffix at the end of the text)? -/
def scanAny (p : List Char → Bool) : List Char → Bool
  | [] => p []
  | c :: cs => p (c :: cs) || scanAny p cs

/-- `re.search` model for patterns needing a word-boundary before the match:
`p prevIsWord suffix` decides a match starting at the suffix, given whether
the preceding character was a word character. -/
def scanAnyB (p : Bool → List Char → Bool) : Bool → List Char → Bool
  | prev, [] => p prev []
  | prev, c :: cs => p prev (c :: cs) || scanAnyB p (wordChar c) cs

/-- After a literal keyword, the tail `\s+\w+ed` of the passive-voice regexes:
at least one whitespace character, then one or more word characters followed by
`ed` (i.e. the maximal word-character run has `ed` at some index ≥ 1). -/
def edTail (rest : List Char) : Bool :=
  match rest with
  | [] => false
  | c :: _ =>
    pySpace c &&
      containsSub ['e', 'd'] (((rest.dropWhile pySpace).takeWhile wordChar).drop 1)

/-- `re.search(kw + r'\s+\w+ed', text, re.IGNORECASE)` for a literal keyword
`kw` (one of `should be`, `can be`, `will be`). -/
def passivePatternHit (kw : String) (text : String) : Bool :=
  scanAny (fun cs => kw.data.isPrefixOf cs && edTail (cs.drop kw.data.length))
    (lowerData text)

/-- `re.search(r'(should be|can be|will be)\s+\w+ed', text, re.IGNORECASE)`
(the alternation matches iff one of the three keyword patterns matches). -/
def passiveHit (text : String) : Bool :=
  passivePatternHit "should be" text || passivePatternHit "can be" text ||
  passivePatternHit "will be" text

/-- `re.search(r'\bwill\s+\w+', text, re.IGNORECASE)`. -/
def futureHit (text : String) : Bool :=
  scanAnyB
    (fun prev cs =>
      !prev && ("will" : String).data.isPrefixOf cs &&
        (match cs.drop 4 with
         | [] => false
         | c :: _ =>
           pySpace c && !(((cs.drop 4).dropWhile pySpace).takeWhile wordChar).isEmpty))
    false (lowerData text)

/-- A whole-word (or whole-phrase) match `\b w \b` starting at this position:
boundary before, the literal characters, boundary after. -/
def wholeWordAt (w : List Char) (prev : Bool) (cs : List Char) : Bool :=
  !prev && w.isPrefixOf cs &&
    (match cs.drop w.length with
     | [] => true
     | c :: _ => !wordChar c)

/-- `re.search(rf'\b{word}\b', text, re.IGNORECASE)`. -/
def containsWholeWord (w : String) (text : String) : Bool :=
  scanAnyB (wholeWordAt w.data) false (lowerData text)

def fillerWords : List String := ["actually", "basically", "really", "very"]

/-- The list comprehension `[word for word in fillers if re.search(...)]`. -/
def foundFillers (text : String) : List String :=
  fillerWords.filter (fun w => containsWholeWord w text)

/-- `re.search(r'\b(the button|the link|the field)\b', text, re.IGNORECASE)`
(and the equivalent alternation of src/app.py). -/
def vagueHit (text : String) : Bool :=
  scanAnyB
    (fun prev cs =>
      wholeWordAt ("the button" : String).data prev cs ||
      wholeWordAt ("the link" : String).data prev cs ||
      wholeWordAt ("the field" : String).data prev cs)
    false (lowerData text)

def sentPunct (c : Char) : Bool := c == '.' || c == '!' || c == '?'

/-- `re.split(r'[.!?]+', text)`: chunks between maximal runs of
sentence-ending punctuation (empty chunks at the ends included, as `re.split`
produces them).  Fuel-indexed; `length + 1` fuel suffices. -/
def splitSentGo : Nat → List Char → List (List Char)
  | 0, _ => []
  | fuel + 1, cs =>
    let chunk := cs.takeWhile (fun c => !sentPunct c)
    match cs.drop chunk.length with
    | [] => [chunk]
    | rest => chunk :: splitSentGo fuel (rest.dropWhile sentPunct)

/-- `sentences = re.split(r'[.!?]+', text)`. -/
def splitSentences (text : String) : List (List Char) :=
  splitSentGo (text.data.length + 1) text.data

/-- `long_sentences = [s for s in sentences if len(s.split()) > 25]`. -/
def longSentenceList (text : String) : List (List Char) :=
  (splitSentences text).filter (fun s => 25 < wordCount s)

/-- `len(long_sentences)`. -/
def longSentenceCount (text : String) : Nat := (longSentenceList text).length

/-- The exact issue string `quick_analysis` appends for long sentences. -/
def longSentencesMsg (n : Nat) : String :=
  "⚠️ **Long Sentences**: " ++ toString n ++ " sentences over 25 words"

/-- `quick_analysis(text)` from src/main.py: the ordered issue list. -/
def quick_analysis (text : String) : List String :=
  (if passiveHit text then
     ["⚠️ **Passive Voice**: Use active voice for clearer instructions"] else [])
  ++ (if futureHit text then
        ["⚠️ **Future Tense**: Use present tense (\u0027returns\u0027 not \u0027will return\u0027)"]
      else [])
  ++ (if (foundFillers text).isEmpty then []
      else ["⚠️ **Wordiness**: Remove unnecessary words: "
              ++ String.intercalate ", " (foundFillers text)])
  ++ (if vagueHit text then
        ["⚠️ **Vague Reference**: Be specific (\u0027Save button\u0027 not \u0027the button\u0027)"]
      else [])
  ++ (if (longSentenceList text).isEmpty then []
      else [longSentencesMsg (longSentenceCount text)])

/-- One issue dictionary of `analyze_technical_writing_issues` (src/app.py). -/
structure AppIssue where
  type : String
  priority : String
  suggestion : String
deriving DecidableEq

/-- `analyze_technical_writing_issues(text)` from src/app.py: passive voice
(one issue per matching pattern), future tense, wordiness (one issue per
filler word found), vague UI references.  The source has no long-sentence
rule. -/
def analyze_technical_writing_issues (text : String) : List AppIssue :=
  (if passivePatternHit "should be" text then
     [⟨"Passive Voice", "High", "Use active voice in instructions"⟩] else [])
  ++ (if passivePatternHit "can be" text then
        [⟨"Passive Voice", "High", "Use active voice in instructions"⟩] else [])
  ++ (if passivePatternHit "will be" text then
        [⟨"Passive Voice", "High", "Use active voice in instructions"⟩] else [])
  ++ (if futureHit text then
        [⟨"Future Tense", "Medium",
          "Use present tense: \u0027returns\u0027 not \u0027will return\u0027"⟩]
      else [])
  ++ (foundFillers text).map
       (fun w => ⟨"Wordiness", "High", "Remove unnecessary \u0027" ++ w ++ "\u0027"⟩)
  ++ (if vagueHit text then
        [⟨"Vague UI Reference", "High",
          "Specify UI elements: \u0027the Save button\u0027 not \u0027the button\u0027"⟩]
      else [])

/-! ## Persistence (src/main.py, `save_review` / `get_reviews`).  The SQLite
table `editorial_reviews` is modelled as a list of rows; `INSERT` appends a row
with the next autoincrement id, and `SELECT * ... ORDER BY timestamp DESC`
sorts on the text timestamp column (SQLite's default binary collation, i.e.
lexicographic comparison of the character codes). -/

structure ReviewRow where
  id : Nat
  timestamp : String
  document_type : String
  document_title : String
  original_text : String
  review_notes : String
  review_status : String
deriving DecidableEq

/-- Lexicographic (binary-collation) `<=` on character lists, as SQLite
compares TEXT values. -/
def charListLe : List Char → List Char → Bool
  | [], _ => true
  | _ :: _, [] => false
  | a :: as, b :: bs =>
    if a.val < b.val then true
    else if b.val < a.val then false
    else charListLe as bs

/-- Row order produced by `ORDER BY timestamp DESC`: `a` before `b` when
`a.timestamp >= b.timestamp`. -/
def tsGe (a b : ReviewRow) : Bool := charListLe b.timestamp.data a.timestamp.data

/-- Insertion step of the sort used to model `ORDER BY timestamp DESC`. -/
def insertRowSorted (r : ReviewRow) : List ReviewRow → List ReviewRow
  | [] => [r]
  | x :: xs => if tsGe r x then r :: x :: xs else x :: insertRowSorted r xs

/-- Sort rows descending by timestamp (insertion sort; any stable order among
equal timestamps is consistent with the SQL, which leaves ties unspecified). -/
def sortRowsDesc : List ReviewRow → List ReviewRow
  | [] => []
  | x :: xs => insertRowSorted x (sortRowsDesc xs)

/-- `save_review(doc_type, doc_title, original_text, review_notes)`: a
single-row insert; `timestamp` is the formatted `datetime.now()` string,
passed explicitly here; `review_status` takes the schema default
`'completed'`. -/
def save_review (db : List ReviewRow)
    (timestamp doc_type doc_title original_text review_notes : String) :
    List ReviewRow :=
  db ++ [⟨db.length + 1, timestamp, doc_type, doc_title, original_text,
          review_notes, "completed"⟩]

/-- `get_reviews()`: `SELECT * FROM editorial_reviews ORDER BY timestamp DESC`. -/
def get_reviews (db : List ReviewRow) : List ReviewRow := sortRowsDesc db

/-! ## Documentation fetcher with cache (`fetch_documentation`, identical in
src/main.py and src/app.py).  `DOCS_CACHE` is threaded explicitly; time is an
integer timestamp; the last component lists the URLs requested over HTTP. -/

structure CacheEntry where
  content : String
  timestamp : Int
deriving DecidableEq

abbrev DocsCache := List (String × CacheEntry)

def cacheLookup (cache : DocsCache) (key : String) : Option CacheEntry :=
  List.lookup key cache

/-- Dictionary assignment `DOCS_CACHE[doc_key] = {...}` (overwrite). -/
def cacheInsert (cache : DocsCache) (key : String) (e : CacheEntry) : DocsCache :=
  (key, e) :: cache.filter (fun p => !(p.1 == key))

def GITHUB_REPO_BASE : String :=
  "https://raw.githubusercontent.com/Renda02/tech-101-handbook/main"

/-- The `DOCUMENTATION_URLS` dictionary. -/
def DOCUMENTATION_URLS (key : String) : Option String :=
  if key == "content_classification_guide" then
    some (GITHUB_REPO_BASE ++ "/editing-rules/content-classification-guide.md")
  else if key == "style_guide" then
    some (GITHUB_REPO_BASE ++ "/handbook/style-guide.md")
  else if key == "wordiness_examples" then
    some (GITHUB_REPO_BASE ++ "/editing-rules/examples/wordiness-examples.md")
  else if key == "clarity_examples" then
    some (GITHUB_REPO_BASE ++ "/editing-rules/examples/clarity-vague-language.md")
  else if key == "quick_reference" then
    some (GITHUB_REPO_BASE ++ "/editing-rules/quick-reference.md")
  else none

def CACHE_EXPIRY : Int := 3600

/-- `fetch_documentation(doc_key)`: check the cache first (an entry is valid
when `now - entry.timestamp < 3600`); otherwise look up the URL (unknown key
returns `None` with no request) and perform the GET, where the network oracle
returns `some body` for a 2xx response and `none` when the request raises.
Returns (content or `None`, updated cache, URLs requested). -/
def fetchFreshDoc (net : String → Option String) (now : Int)
    (cache : DocsCache) (key : String) :
    Option String × DocsCache × List String :=
  match DOCUMENTATION_URLS key with
  | none => (none, cache, [])
  | some url =>
    match net url with
    | some content => (some content, cacheInsert cache key ⟨content, now⟩, [url])
    | none => (none, cache, [url])

def fetch_documentation (net : String → Option String) (now : Int)
    (cache : DocsCache) (key : String) :
    Option String × DocsCache × List String :=
  match cacheLookup cache key with
  | some e =>
    if now - e.timestamp < CACHE_EXPIRY then (some e.content, cache, [])
    else fetchFreshDoc net now cache key
  | none => fetchFreshDoc net now cache key

/-! ## Language-model agents and orchestrator (src/main.py) and the follow-up
chat routing (src/app.py).  The OpenAI client is abstracted as an oracle from
(system prompt, user prompt) to either the completion text or the exception
message `str(e)`; each agent records the calls it issues. -/

/-- The `client.chat.completions.create` oracle. -/
def Llm : Type := String → String → Except String String

/-- One issued language-model request: (system prompt, user prompt). -/
abbrev LlmCall : Type := String × String

/-- Document metadata dictionary (`title`/`type` are always present in the
dictionaries both entry points construct). -/
structure DocMetadata where
  title : String
  type : String
deriving DecidableEq

/-- Python `guide[:n] if guide else default` for fetched reference content. -/
def truncOr (o : Option String) (n : Nat) (d : String) : String :=
  match o with
  | some c => if c.isEmpty then d else takeStr n c
  | none => d

def contentSystemPrompt (docs : String → Option String) : String :=
  "\n    You are a Content Analyzer Agent specializing in technical documentation quality.\n\n    Focus on identifying:\n    1. Wordiness and filler text\n    2. Vague language and unclear references  \n    3. Missing context and logical gaps\n    4. Abstract content lacking visualization\n    5. Redundant information\n    6. Missing outcomes and value statements\n\n    Content Guide Reference:\n    "
  ++ truncOr (docs "content_classification_guide") 1500 "Guide not available"
  ++ "\n\n    Wordiness Examples:\n    "
  ++ truncOr (docs "wordiness_examples") 800 "Examples not available"
  ++ "\n\n    Clarity Examples:\n    "
  ++ truncOr (docs "clarity_examples") 800 "Examples not available"
  ++ "\n\n    Provide specific examples and actionable suggestions.\n    "

def contentUserPrompt (text : String) (md : DocMetadata) : String :=
  "\n    Analyze this " ++ md.type ++ " for content quality issues:\n    \n    Title: "
  ++ md.title ++ "\n    \n    Content:\n    " ++ text
  ++ "\n    \n    Focus on clarity, precision, and reader comprehension.\n    "

/-- `run_content_analysis` (src/main.py): one completion request; a raised
exception becomes an error report, the sole failure path. -/
def run_content_analysis (docs : String → Option String) (llm : Llm)
    (text : String) (md : DocMetadata) : AgentReport :=
  match llm (contentSystemPrompt docs) (contentUserPrompt text md) with
  | .ok analysis => .ok "Content Analyzer" analysis
  | .error e => .err "Content Analyzer" e

def styleSystemPrompt (docs : String → Option String) : String :=
  "\n    You are a Style Guide Enforcer Agent specializing in technical writing standards.\n\n    Check for:\n    1. Active vs passive voice\n    2. Present tense usage\n    3. Sentence length (max 26 words)\n    4. UI element specifications\n    5. Capitalization and formatting\n    6. Grammar and punctuation\n\n    Style Guide Reference:\n    "
  ++ truncOr (docs "style_guide") 1500 "Guide not available"
  ++ "\n\n    Quick Reference:\n    "
  ++ truncOr (docs "quick_reference") 800 "Reference not available"
  ++ "\n\n    Identify specific violations with corrections.\n    "

def styleUserPrompt (text : String) (md : DocMetadata) : String :=
  "\n    Check this " ++ md.type ++ " for style guide compliance:\n    \n    Title: "
  ++ md.title ++ "\n    \n    Content:\n    " ++ text
  ++ "\n    \n    Focus on voice, tense, and formatting standards.\n    "

/-- `run_style_analysis` (src/main.py). -/
def run_style_analysis (docs : String → Option String) (llm : Llm)
    (text : String) (md : DocMetadata) : AgentReport :=
  match llm (styleSystemPrompt docs) (styleUserPrompt text md) with
  | .ok check => .ok "Style Guide Enforcer" check
  | .error e => .err "Style Guide Enforcer" e

def synthSystemPrompt : String :=
  "\n    You are a Senior Editor Agent coordinating technical documentation review.\n\n    Responsibilities:\n    1. Synthesize findings from specialist agents\n    2. Prioritize issues by impact\n    3. Provide clear, actionable recommendations\n    4. Create comprehensive editorial guidance\n    5. Offer to provide a rewritten draft\n\n    Create a professional review combining all specialist insights.\n    "

/-- The block `run_editorial_synthesis` appends per agent report: findings on
success, the recorded error text on failure. -/
def reportBlock (r : AgentReport) : String :=
  match r with
  | .ok agent f => "\n--- " ++ agent ++ " Report ---\n" ++ f ++ "\n"
  | .err agent e => "\n--- " ++ agent ++ " ---\nError: " ++ e ++ "\n"

/-- `combined_findings` accumulated over the agent reports. -/
def combinedFindings (reports : List AgentReport) : String :=
  reports.foldl (fun acc r => acc ++ reportBlock r) ""

def synthUserPrompt (text : String) (md : DocMetadata)
    (reports : List AgentReport) : String :=
  "\n    Create comprehensive editorial review based on specialist agent reports:\n    \n    Document: "
  ++ md.title ++ " (" ++ md.type ++ ")\n    \n    SPECIALIST FINDINGS:\n    "
  ++ combinedFindings reports
  ++ "\n    \n    DOCUMENT PREVIEW:\n    " ++ takeStr 800 text
  ++ "...\n    \n    Provide:\n    1. Executive summary\n    2. Priority issues\n    3. Specific improvements\n    4. Overall assessment\n    "

/-- Return value of `run_editorial_synthesis`: the review plus the carried
`agent_reports`, or an error dictionary. -/
inductive SynthResult where
  | ok (review : String) (agent_reports : List AgentReport)
  | err (error : String)
deriving DecidableEq

/-- `run_editorial_synthesis(document_text, doc_metadata, agent_reports)`. -/
def run_editorial_synthesis (llm : Llm) (text : String) (md : DocMetadata)
    (reports : List AgentReport) : SynthResult :=
  match llm synthSystemPrompt (synthUserPrompt text md reports) with
  | .ok review => .ok review reports
  | .error e => .err e

/-- `run_multi_agent_review` (src/main.py): phase 1 runs the content, style
and link agents (gathered concurrently in the source; each is an independent
pure function of its oracles, so the joint result is their tuple), phase 2
always feeds all three reports to the synthesizer. -/
def run_multi_agent_review (docs : String → Option String) (llm : Llm)
    (net : String → FetchOutcome) (text : String) (md : DocMetadata) : SynthResult :=
  let contentResult := run_content_analysis docs llm text md
  let styleResult := run_style_analysis docs llm text md
  let linkResult := (run_link_validation net text).1
  run_editorial_synthesis llm text md [contentResult, styleResult, linkResult]

/-! ## Follow-up chat routing (src/app.py, `main` lines 839–891, with
`handle_chat_question` and `run_document_rewrite`). -/

def rewriteKeywords : List String :=
  ["rewrite", "yes, rewrite", "yes please", "go ahead", "yes, go ahead",
   "create new version", "improve draft"]

/-- `any(keyword in user_input.lower() for keyword in rewrite_keywords)`. -/
def isRewriteRequest (input : String) : Bool :=
  rewriteKeywords.any (fun k => containsSub k.data (lowerData input))

/-- `docs_to_fetch` selected by keyword matching on the question. -/
def chatDocsToFetch (q : String) : List String :=
  (if ["style", "format", "voice", "tense"].any
        (fun w => containsSub w.data (lowerData q)) then ["style_guide"] else [])
  ++ (if ["content", "clarity", "wordiness"].any
          (fun w => containsSub w.data (lowerData q)) then
        ["content_classification_guide"] else [])

/-- `reference_material` accumulated from the fetched documents. -/
def chatReferenceMaterial (docs : String → Option String) (q : String) : String :=
  (chatDocsToFetch q).foldl
    (fun acc k =>
      match docs k with
      | some c => if c.isEmpty then acc else acc ++ k ++ ": " ++ takeStr 600 c ++ "\n\n"
      | none => acc) ""

def chatSystemPrompt (docs : String → Option String) (q : String) : String :=
  "\n    You are a Chat Assistant Agent for technical writers.\n\n    Expertise:\n    1. Technical writing principles\n    2. Style guide standards\n    3. Content improvement techniques\n    4. Documentation processes\n\n    Reference Material:\n    "
  ++ (if (chatReferenceMaterial docs q).isEmpty then
        "Using general technical writing knowledge"
      else chatReferenceMaterial docs q)
  ++ "\n    \n    Provide helpful, specific guidance.\n    "

def chatUserPrompt (q : String) (ctx : Option String) : String :=
  "\n    User Question: " ++ q ++ "\n    \n    Context: "
  ++ (match ctx with
      | some c => if c.isEmpty then "General inquiry" else takeStr 300 c
      | none => "General inquiry")
  ++ "\n    \n    Provide helpful technical writing guidance.\n    "

/-- Result of a single chat/rewrite agent call. -/
inductive AgentCallResult where
  | ok (text : String)
  | err (msg : String)
deriving DecidableEq

/-- `handle_chat_question(user_question, context)`: always issues exactly one
completion request (recorded as the second component). -/
def handle_chat_question (docs : String → Option String) (llm : Llm)
    (q : String) (ctx : Option String) : AgentCallResult × List LlmCall :=
  let sys := chatSystemPrompt docs q
  let usr := chatUserPrompt q ctx
  (match llm sys usr with | .ok g => .ok g | .error e => .err e, [(sys, usr)])

def rewriteSystemPrompt (docs : String → Option String) : String :=
  "\n    You are a Technical Writer Agent specializing in document improvement.\n\n    Rewriting principles:\n    1. Apply all style guide standards\n    2. Fix content quality issues  \n    3. Maintain technical accuracy\n    4. Preserve author intent\n    5. Ensure logical flow\n    6. Optimize for user experience\n\n    Style Guide:\n    "
  ++ truncOr (docs "style_guide") 800 ""
  ++ "\n    \n    Content Rules:\n    "
  ++ truncOr (docs "content_classification_guide") 800 ""
  ++ "\n    \n    Create a polished, professional version.\n    "

def rewriteUserPrompt (orig : String) (md : DocMetadata) (guidance : String) : String :=
  "\n    Rewrite this document incorporating editorial feedback:\n    \n    ORIGINAL:\n    "
  ++ orig ++ "\n    \n    EDITORIAL GUIDANCE:\n    " ++ guidance
  ++ "\n    \n    Document: " ++ md.title ++ " (" ++ md.type
  ++ ")\n    \n    Provide complete improved version addressing all issues.\n    "

/-- `run_document_rewrite(original_text, doc_metadata, editorial_guidance)`
(src/app.py): one completion request, recorded. -/
def run_document_rewrite (docs : String → Option String) (llm : Llm)
    (orig : String) (md : DocMetadata) (guidance : String) :
    AgentCallResult × List LlmCall :=
  let sys := rewriteSystemPrompt docs
  let usr := rewriteUserPrompt orig md guidance
  (match llm sys usr with | .ok d => .ok d | .error e => .err e, [(sys, usr)])

/-- Which branch the follow-up chat input took. -/
inductive ChatTurn where
  | rewriteTurn (r : AgentCallResult)
  | chatTurn (r : AgentCallResult)
deriving DecidableEq

/-- The follow-up chat-input block of `main` (src/app.py): the rewrite agent
runs only when a rewrite keyword matches, the document text is non-empty
(truthy) and `'last_review' in st.session_state`; otherwise the input goes to
the chat assistant with `context=document_text[:500] if document_text else
None`. -/
def processChatInput (docs : String → Option String) (llm : Llm)
    (userInput docText : String) (lastReview : Option String)
    (md : DocMetadata) : ChatTurn × List LlmCall :=
  match lastReview, isRewriteRequest userInput && !docText.isEmpty with
  | some review, true =>
    let r := run_document_rewrite docs llm docText md review
    (.rewriteTurn r.1, r.2)
  | some _, false =>
    let r := handle_chat_question docs llm userInput
      (if docText.isEmpty then none else some (takeStr 500 docText))
    (.chatTurn r.1, r.2)
  | none, _ =>
    let r := handle_chat_question docs llm userInput
      (if docText.isEmpty then none else some (takeStr 500 docText))
    (.chatTurn r.1, r.2)

/-! ## General lemmas about the modelling primitives -/

theorem length_filter_partition {α : Type} (p : α → Bool) (l : List α) :
    (l.filter p).length + (l.filter (fun a => !p a)).length = l.length := by
  induction l with
  | nil => rfl
  | cons a l ih => cases h : p a <;> simp [List.filter_cons, h] <;> omega

theorem isPrefixOf_append_self (s t : List Char) : s.isPrefixOf (s ++ t) = true := by
  induction s with
  | nil => simp [List.isPrefixOf]
  | cons a s ih => simp [List.isPrefixOf, ih]

theorem containsSub_self_append (s t : List Char) : containsSub s (s ++ t) = true := by
  cases s with
  | nil => cases t <;> simp [containsSub]
  | cons a s => simp [containsSub, isPrefixOf_append_self]

theorem containsSub_cons_of (s : List Char) (c : Char) (cs : List Char)
    (h : containsSub s cs = true) : containsSub s (c :: cs) = true := by
  simp [containsSub, h]

theorem containsSub_append_of {s hay : List Char} (pre : List Char)
    (h : containsSub s hay = true) : containsSub s (pre ++ hay) = true := by
  induction pre with
  | nil => simpa using h
  | cons c p ih => simpa [List.cons_append] using containsSub_cons_of _ c _ ih

theorem strData_append (a b : String) : (a ++ b).data = a.data ++ b.data := by
  cases a; cases b; rfl

theorem notPrefix_cons_of_head_ne (a b : Char) (s t : List Char)
    (h : (a == b) = false) : List.isPrefixOf (a :: s) (b :: t) = false := by
  simp [List.isPrefixOf, h]

/-- A status string beginning with the warning sign is not classified as
working (`startswith("✅")` fails). -/
theorem isWorking_warn_false (url : String) (tail : String) (hc : HttpCode)
    (sg : Option String) :
    isWorkingResult ⟨url, "⚠️" ++ tail, hc, sg⟩ = false := by
  unfold isWorkingResult
  rw [strData_append]
  rw [show ("⚠️" : String).data = '⚠' :: ("️" : String).data from rfl]
  rw [List.cons_append]
  rw [show (("✅" : String).data) = ['✅'] from rfl]
  exact notPrefix_cons_of_head_ne _ _ _ _ (by decide)

theorem charListLe_total (a : List Char) : ∀ b : List Char,
    charListLe a b = true ∨ charListLe b a = true := by
  induction a with
  | nil => intro b; left; rfl
  | cons x xs ih =>
    intro b
    cases b with
    | nil => right; rfl
    | cons y ys =>
      by_cases h1 : x.val < y.val
      · left; simp [charListLe, h1]
      · by_cases h2 : y.val < x.val
        · right; simp [charListLe, h2]
        · rcases ih ys with h | h
          · left; simp [charListLe, h1, h2, h]
          · right; simp [charListLe, h1, h2, h]

theorem tsGe_total (a b : ReviewRow) : tsGe a b = true ∨ tsGe b a = true :=
  charListLe_total b.timestamp.data a.timestamp.data

theorem chain'_insertRowSorted (r : ReviewRow) (l : List ReviewRow)
    (h : List.Chain' (fun a b => tsGe a b = true) l) :
    List.Chain' (fun a b => tsGe a b = true) (insertRowSorted r l) := by
  induction l with
  | nil => simp [insertRowSorted]
  | cons x xs ih =>
    by_cases hx : tsGe r x = true
    · have hall : List.Chain' (fun a b => tsGe a b = true) (r :: x :: xs) :=
        List.chain'_cons.mpr ⟨hx, h⟩
      simpa [insertRowSorted, hx] using hall
    · have hxr : tsGe x r = true := by
        rcases tsGe_total r x with h1 | h1
        · exact absurd h1 hx
        · exact h1
      cases xs with
      | nil =>
        simp [insertRowSorted, hx, hxr]
      | cons y ys =>
        have htail : List.Chain' (fun a b => tsGe a b = true) (y :: ys) :=
          (List.chain'_cons.mp h).2
        have hins := ih htail
        by_cases hy : tsGe r y = true
        · simp only [insertRowSorted, hx, if_false, hy, if_true] at hins ⊢
          exact List.chain'_cons.mpr ⟨hxr, hins⟩
        · simp only [insertRowSorted, hx, if_false, hy, if_true] at hins ⊢
          exact List.chain'_cons.mpr ⟨(List.chain'_cons.mp h).1, hins⟩

theorem chain'_sortRowsDesc (l : List ReviewRow) :
    List.Chain' (fun a b => tsGe a b = true) (sortRowsDesc l) := by
  induction l with
  | nil => simp [sortRowsDesc]
  | cons x xs ih => exact chain'_insertRowSorted x _ ih

theorem mem_insertRowSorted (a r : ReviewRow) (l : List ReviewRow) :
    a ∈ insertRowSorted r l ↔ a = r ∨ a ∈ l := by
  induction l with
  | nil => simp [insertRowSorted]
  | cons x xs ih =>
    by_cases hx : tsGe r x = true <;> simp [insertRowSorted, hx, ih] <;> tauto

theorem mem_sortRowsDesc (a : ReviewRow) (l : List ReviewRow) :
    a ∈ sortRowsDesc l ↔ a ∈ l := by
  induction l with
  | nil => simp [sortRowsDesc]
  | cons x xs ih => simp [sortRowsDesc, mem_insertRowSorted, ih]

theorem cacheLookup_insert (cache : DocsCache) (key : String) (e : CacheEntry) :
    cacheLookup (cacheInsert cache key e) key = some e := by
  simp [cacheLookup, cacheInsert, List.lookup]

/-! ## Claim theorems -/

/-- Network oracle for concrete checks: every URL answers HTTP 200. -/
def netAll200 : String → FetchOutcome := fun _ => .success 200

/-- Network oracle for concrete checks: every URL answers HTTP 201. -/
def netAll201 : String → FetchOutcome := fun _ => .success 201

/-- A document containing the same URL twice. -/
def dupText : String := "See https://a.b and https://a.b"

/-- C1 (counterexample): the claim counts distinct URLs, but the validator
counts regex matches.  `dupText` contains exactly one distinct URL, yet the
working list and issue list together hold two entries. -/
theorem c1_counterexample :
    (findAllUrls dupText).dedup.length = 1
    ∧ (workingLinks netAll200 (findAllUrls dupText)).length
        + (linkIssues netAll200 (findAllUrls dupText)).length = 2 := by
  constructor <;> decide

/-- C1 (amended): for every document text and network behaviour, the number of
working links plus the number of issues equals the number of extracted URL
matches (occurrences, duplicates counted separately), and every extracted URL
occurrence is classified into exactly one of the two lists — none is dropped. -/
theorem c1_link_partition (net : String → FetchOutcome) (text : String) :
    (workingLinks net (findAllUrls text)).length
      + (linkIssues net (findAllUrls text)).length = (findAllUrls text).length
    ∧ ∀ u, u ∈ findAllUrls text →
        (check_single_link u (net u) ∈ workingLinks net (findAllUrls text)
          ∧ check_single_link u (net u) ∉ linkIssues net (findAllUrls text))
        ∨ (check_single_link u (net u) ∈ linkIssues net (findAllUrls text)
          ∧ check_single_link u (net u) ∉ workingLinks net (findAllUrls text)) := by
  constructor
  · have h := length_filter_partition isWorkingResult (linkResults net (findAllUrls text))
    simpa [workingLinks, linkIssues, linkResults] using h
  · intro u hu
    have hmem : check_single_link u (net u) ∈ linkResults net (findAllUrls text) :=
      List.mem_map_of_mem _ hu
    by_cases hw : isWorkingResult (check_single_link u (net u)) = true
    · left
      refine ⟨List.mem_filter.mpr ⟨hmem, hw⟩, fun hc => ?_⟩
      have h2 := (List.mem_filter.mp hc).2
      simp [hw] at h2
    · right
      refine ⟨List.mem_filter.mpr ⟨hmem, by simp [hw]⟩, fun hc => ?_⟩
      exact hw (List.mem_filter.mp hc).2

/-- C1 (witness): the partition theorem applied to the duplicate-URL text. -/
theorem c1_witness :
    ("https://a.b" ∈ findAllUrls dupText)
    ∧ ((check_single_link "https://a.b" (netAll200 "https://a.b")
          ∈ workingLinks netAll200 (findAllUrls dupText)
        ∧ check_single_link "https://a.b" (netAll200 "https://a.b")
          ∉ linkIssues netAll200 (findAllUrls dupText))
      ∨ (check_single_link "https://a.b" (netAll200 "https://a.b")
          ∈ linkIssues netAll200 (findAllUrls dupText)
        ∧ check_single_link "https://a.b" (netAll200 "https://a.b")
          ∉ workingLinks netAll200 (findAllUrls dupText))) :=
  ⟨by decide, (c1_link_partition netAll200 dupText).2 "https://a.b" (by decide)⟩

/-- C5: the link classification is exactly as specified: HTTP 200 is Working;
404 is Not Found with the 404 remediation; 401/403 are Access Restricted; any
other HTTP error code gets the generic HTTP label; any other exception gets an
Error label with the message truncated to 50 characters and a remediation
keyed on substrings of the message in the order SSL/certificate, DNS,
connection refused, generic. -/
theorem c5_classification (url msg : String) (code : Nat)
    (h404 : code ≠ 404) (h401 : code ≠ 401) (h403 : code ≠ 403) :
    check_single_link url (.success 200) = ⟨url, "✅ Working", .num 200, none⟩
    ∧ check_single_link url (.httpError 404)
        = ⟨url, "❌ Not Found (404)", .num 404, some (suggest_404_fixes url)⟩
    ∧ check_single_link url (.httpError 401)
        = ⟨url, "🔒 Access Restricted (401)", .num 401,
            some "Verify if authentication is required or if link should be public"⟩
    ∧ check_single_link url (.httpError 403)
        = ⟨url, "🔒 Access Restricted (403)", .num 403,
            some "Verify if authentication is required or if link should be public"⟩
    ∧ check_single_link url (.httpError code)
        = ⟨url, "❌ HTTP " ++ toString code, .num code,
            some "Check server status or find alternative"⟩
    ∧ check_single_link url (.otherError msg)
        = ⟨url, "❌ Error: " ++ takeStr 50 msg, .error, some (suggest_error_fixes url msg)⟩
    ∧ ((strContains "SSL" msg || strContains "certificate" (lowerStr msg)) = true →
        suggest_error_fixes url msg
          = "SSL certificate issue - site may be misconfigured or unsafe")
    ∧ ((strContains "SSL" msg || strContains "certificate" (lowerStr msg)) = false →
        (strContains "Name or service not known" msg || strContains "DNS" msg) = true →
        suggest_error_fixes url msg
          = "Domain no longer exists - find alternative or remove link")
    ∧ ((strContains "SSL" msg || strContains "certificate" (lowerStr msg)) = false →
        (strContains "Name or service not known" msg || strContains "DNS" msg) = false →
        strContains "Connection refused" msg = true →
        suggest_error_fixes url msg
          = "Server is down - check if this is temporary or permanent")
    ∧ ((strContains "SSL" msg || strContains "certificate" (lowerStr msg)) = false →
        (strContains "Name or service not known" msg || strContains "DNS" msg) = false →
        strContains "Connection refused" msg = false →
        suggest_error_fixes url msg = "Network error - verify URL is correct") := by
  refine ⟨by simp [check_single_link],
          by simp [check_single_link],
          by simp [check_single_link]; decide,
          by simp [check_single_link]; decide,
          by simp [check_single_link, h404, h401, h403],
          by simp [check_single_link],
          fun h => by simp [suggest_error_fixes, h],
          fun h1 h2 => ?_, fun h1 h2 h3 => ?_, fun h1 h2 h3 => ?_⟩
  · simp only [Bool.or_eq_false_iff] at h1
    simp [suggest_error_fixes, h1.1, h1.2, h2]
  · simp only [Bool.or_eq_false_iff] at h1 h2
    simp [suggest_error_fixes, h1.1, h1.2, h2.1, h2.2, h3]
  · simp only [Bool.or_eq_false_iff] at h1 h2
    simp [suggest_error_fixes, h1.1, h1.2, h2.1, h2.2, h3]

/-- C5 (witness): the classification theorem applied to a concrete URL,
message and status code 500. -/
theorem c5_witness :
    check_single_link "https://x.y" (.httpError 500)
      = ⟨"https://x.y", "❌ HTTP " ++ toString 500, .num 500,
          some "Check server status or find alternative"⟩ :=
  (c5_classification "https://x.y" "Connection refused" 500
    (by decide) (by decide) (by decide)).2.2.2.2.1

/-- C6 (counterexample): for a 404 URL whose host is `docs.github.com`, the
claim's branch condition (code-host AND blob path) is false and its docs/wiki
pattern matches, so the claim predicts the site-search suggestion; the code
takes the `github.com` branch regardless of the path and emits no such
suggestion. -/
theorem c6_counterexample :
    strContains "docs." (urlparse "https://docs.github.com/en/get-started").netloc = true
    ∧ strContains "/blob/" (urlparse "https://docs.github.com/en/get-started").path = false
    ∧ strContains "• Documentation may have been restructured"
        (suggest_404_fixes "https://docs.github.com/en/get-started") = false := by
  refine ⟨by decide, by decide, by decide⟩

/-- C6 (amended): the 404 heuristic branches on the host containing
`github.com` FIRST: in that branch the rename/branch suggestions appear only
when the path contains `/blob/`, and an archive lookup is always added; the
documentation/wiki branch and the API branch are reached only when the host
does not contain `github.com`; every branch additionally appends the
manual-site-check suggestion and an archive lookup, and the returned text is
the newline-join of these suggestions. -/
theorem c6_404_priority (url : String) :
    (strContains "github.com" (urlparse url).netloc = true →
       suggest_404_list url
         = (if strContains "/blob/" (urlparse url).path then [sugMoved, sugBranch] else [])
           ++ [sugTryArchive url, sugManual url, sugSearchArchive url])
    ∧ (strContains "github.com" (urlparse url).netloc = false →
       docsSiteCond (urlparse url).netloc = true →
       suggest_404_list url
         = [sugRestructured, sugRemoveVersions, sugManual url, sugSearchArchive url])
    ∧ (strContains "github.com" (urlparse url).netloc = false →
       docsSiteCond (urlparse url).netloc = false →
       apiPathCond (urlparse url).path = true →
       suggest_404_list url
         = [sugApiVersion, sugDeprecated, sugManual url, sugSearchArchive url])
    ∧ (strContains "github.com" (urlparse url).netloc = false →
       docsSiteCond (urlparse url).netloc = false →
       apiPathCond (urlparse url).path = false →
       suggest_404_list url = [sugManual url, sugSearchArchive url])
    ∧ suggest_404_fixes url = String.intercalate "\n" (suggest_404_list url) := by
  refine ⟨fun hg => by simp [suggest_404_list, hg],
          fun hg hd => by simp [suggest_404_list, hg, hd],
          fun hg hd ha => by simp [suggest_404_list, hg, hd, ha],
          fun hg hd ha => by simp [suggest_404_list, hg, hd, ha],
          ?_⟩
  have hne : suggest_404_list url ≠ [] := by simp [suggest_404_list]
  simp [suggest_404_fixes, hne]

/-- C6 (witness): the amended theorem applied to a GitHub blob URL. -/
theorem c6_witness :
    suggest_404_list "https://github.com/example/repo/blob/master/README.md"
      = (if strContains "/blob/"
            (urlparse "https://github.com/example/repo/blob/master/README.md").path
         then [sugMoved, sugBranch] else [])
        ++ [sugTryArchive "https://github.com/example/repo/blob/master/README.md",
            sugManual "https://github.com/example/repo/blob/master/README.md",
            sugSearchArchive "https://github.com/example/repo/blob/master/README.md"] :=
  (c6_404_priority "https://github.com/example/repo/blob/master/README.md").1 (by decide)

/-- C7: when the URL regex matches nothing, the validator returns exactly the
single informational report and issues no network request. -/
theorem c7_no_links (net : String → FetchOutcome) (text : String)
    (h : findAllUrls text = []) :
    run_link_validation net text
      = (.ok "Link Validator" noLinksFindings, []) := by
  simp [run_link_validation, h]

/-- A concrete document with no URL in it. -/
def noLinkText : String := "This document mentions no web addresses at all."

/-- C7 (witness): the no-links theorem applied to a concrete document. -/
theorem c7_witness :
    findAllUrls noLinkText = []
    ∧ run_link_validation netAll200 noLinkText
        = (.ok "Link Validator" noLinksFindings, []) :=
  ⟨by decide, c7_no_links netAll200 noLinkText (by decide)⟩

/-- C10: a response delivered without an exception but with a status other
than 200 is labelled `⚠️ HTTP {status}` with the check-intended-behavior
suggestion, is not classified as working, and lands in the issues list, not
the working list. -/
theorem c10_non200_success (net : String → FetchOutcome) (urls : List String)
    (url : String) (s : Nat) (hs : s ≠ 200) (hu : url ∈ urls)
    (hn : net url = .success s) :
    check_single_link url (.success s)
      = ⟨url, "⚠️ HTTP " ++ toString s, .num s,
          some "Check if this is the intended behavior"⟩
    ∧ isWorkingResult (check_single_link url (.success s)) = false
    ∧ check_single_link url (.success s) ∈ linkIssues net urls
    ∧ check_single_link url (.success s) ∉ workingLinks net urls := by
  have heq : check_single_link url (.success s)
      = ⟨url, "⚠️ HTTP " ++ toString s, .num s,
          some "Check if this is the intended behavior"⟩ := by
    simp [check_single_link, hs]
  have hsplit : ("⚠️ HTTP " ++ toString s : String) = "⚠️" ++ (" HTTP " ++ toString s) := by
    rw [show ("⚠️ HTTP " : String) = "⚠️" ++ " HTTP " from rfl, String.append_assoc]
  have hw : isWorkingResult (check_single_link url (.success s)) = false := by
    rw [heq, hsplit]
    exact isWorking_warn_false url _ _ _
  have hmem : check_single_link url (.success s) ∈ linkResults net urls := by
    have := List.mem_map_of_mem (fun u => check_single_link u (net u)) hu
    simpa [linkResults, hn] using this
  refine ⟨heq, hw, List.mem_filter.mpr ⟨hmem, by simp [hw]⟩, fun hc => ?_⟩
  have h2 := (List.mem_filter.mp hc).2
  rw [hw] at h2
  cases h2

/-- C10 (witness): the theorem applied to a concrete URL answering 201. -/
theorem c10_witness :
    check_single_link "https://a.b" (.success 201) ∈ linkIssues netAll201 ["https://a.b"]
    ∧ check_single_link "https://a.b" (.success 201) ∉ workingLinks netAll201 ["https://a.b"] :=
  ⟨(c10_non200_success netAll201 ["https://a.b"] "https://a.b" 201
      (by decide) (by simp) rfl).2.2.1,
   (c10_non200_success netAll201 ["https://a.b"] "https://a.b" 201
      (by decide) (by simp) rfl).2.2.2⟩

/-- Membership in a conditional singleton list forces equality. -/
theorem mem_ite_singleton {α : Type} {c : Prop} [Decidable c] {x a : α}
    (h : a ∈ (if c then [x] else [])) : a = x := by
  by_cases hc : c
  · simpa [hc] using h
  · simp [hc] at h

/-- A single 31-word sentence, exceeding both the 25-word threshold of
`quick_analysis` and the 26-word figure quoted in the prompts. -/
def c4text : String :=
  "When a writer keeps adding clause after clause to a single sentence the reader must hold every part in mind at once and comprehension of the whole paragraph suffers badly."

/-- C4 (counterexample): `c4text` has one sentence over the threshold, so the
claim requires a Long Sentences entry from both heuristic entry points, but
`analyze_technical_writing_issues` (src/app.py) produces none: it has no
long-sentence rule at all. -/
theorem c4_counterexample :
    0 < longSentenceCount c4text
    ∧ (analyze_technical_writing_issues c4text).filter
        (fun i => i.type == "Long Sentences") = [] := by
  constructor <;> decide

/-- C4 (amended): only `quick_analysis` (src/main.py) has the long-sentence
rule, with threshold strictly 25 words per sentence; whenever some sentence
qualifies, its issue list carries the Long Sentences entry reporting the exact
number of qualifying sentences.  `analyze_technical_writing_issues`
(src/app.py) never emits a Long Sentences issue. -/
theorem c4_long_sentence_rule (text : String) (h : longSentenceCount text ≠ 0) :
    longSentencesMsg (longSentenceCount text) ∈ quick_analysis text
    ∧ ∀ i ∈ analyze_technical_writing_issues text, i.type ≠ "Long Sentences" := by
  constructor
  · unfold quick_analysis
    refine List.mem_append.mpr (Or.inr ?_)
    have hne : (longSentenceList text).isEmpty = false := by
      cases hl : longSentenceList text with
      | nil => exact absurd (by simp [longSentenceCount, hl]) h
      | cons a l => simp
    simp [hne]
  · intro i hi
    unfold analyze_technical_writing_issues at hi
    rcases List.mem_append.mp hi with hi | hi
    · rcases List.mem_append.mp hi with hi | hi
      · rcases List.mem_append.mp hi with hi | hi
        · rcases List.mem_append.mp hi with hi | hi
          · rcases List.mem_append.mp hi with hi | hi
            · rw [mem_ite_singleton hi]; decide
            · rw [mem_ite_singleton hi]; decide
          · rw [mem_ite_singleton hi]; decide
        · rw [mem_ite_singleton hi]; decide
      · rcases List.mem_map.mp hi with ⟨w, -, rfl⟩
        show ("Wordiness" : String) ≠ "Long Sentences"
        decide
    · rw [mem_ite_singleton hi]; decide

/-- C4 (witness): the amended theorem applied to the 31-word sentence. -/
theorem c4_witness :
    longSentencesMsg (longSentenceCount c4text) ∈ quick_analysis c4text :=
  (c4_long_sentence_rule c4text (by decide)).1

/-- C9: a saved review is retrievable through `get_reviews` with identical
title, type and original text, and the returned rows are ordered by timestamp
descending (adjacent rows non-increasing under the binary text collation). -/
theorem c9_roundtrip_order (db : List ReviewRow) (ts ty ti tx notes : String) :
    (∃ r, r ∈ get_reviews (save_review db ts ty ti tx notes)
       ∧ r.document_title = ti ∧ r.document_type = ty ∧ r.original_text = tx)
    ∧ List.Chain' (fun a b => tsGe a b = true)
        (get_reviews (save_review db ts ty ti tx notes)) := by
  constructor
  · refine ⟨⟨db.length + 1, ts, ty, ti, tx, notes, "completed"⟩, ?_, rfl, rfl, rfl⟩
    rw [get_reviews, mem_sortRowsDesc]
    simp [save_review]
  · exact chain'_sortRowsDesc _

/-- C8: once `fetch_documentation` has returned content `c` for a key and the
cache entry for that key is younger than the 3600-second expiry at the time of
a repeated call, the repeated call returns the identical content, leaves the
cache unchanged and performs no network request — for ANY second network
oracle, showing the network is not consulted. -/
theorem c8_cache_fresh (net net2 : String → Option String) (t0 t1 : Int)
    (cache cache1 : DocsCache) (key c : String) (log : List String) (e : CacheEntry)
    (h1 : fetch_documentation net t0 cache key = (some c, cache1, log))
    (hl : cacheLookup cache1 key = some e)
    (hf : t1 - e.timestamp < CACHE_EXPIRY) :
    fetch_documentation net2 t1 cache1 key = (some c, cache1, []) ∧ e.content = c := by
  have hfresh : ∀ cache1' log',
      fetchFreshDoc net t0 cache key = (some c, cache1', log') →
      cacheLookup cache1' key = some ⟨c, t0⟩ := by
    intro cache1' log' h
    unfold fetchFreshDoc at h
    split at h
    · simp [Prod.ext_iff] at h
    · split at h
      next content heqnet =>
        obtain ⟨ha, hb, -⟩ : some content = some c
            ∧ cacheInsert cache key ⟨content, t0⟩ = cache1' ∧ _ := by
          simpa [Prod.ext_iff] using h
        rw [← hb, Option.some.inj ha]
        exact cacheLookup_insert cache key ⟨c, t0⟩
      next heqnet => simp [Prod.ext_iff] at h
  have hcontent : e.content = c := by
    unfold fetch_documentation at h1
    split at h1
    next e0 heq0 =>
      by_cases hfr : t0 - e0.timestamp < CACHE_EXPIRY
      · rw [if_pos hfr] at h1
        obtain ⟨h1a, h1b, -⟩ : some e0.content = some c ∧ cache = cache1 ∧ _ := by
          simpa [Prod.ext_iff] using h1
        rw [← h1b, heq0] at hl
        cases hl
        exact Option.some.inj h1a
      · rw [if_neg hfr] at h1
        have := hfresh cache1 log h1
        rw [hl] at this
        cases this
        rfl
    next heq0 =>
      have := hfresh cache1 log h1
      rw [hl] at this
      cases this
      rfl
  refine ⟨?_, hcontent⟩
  unfold fetch_documentation
  rw [hl]
  simp [hf, hcontent]

/-- Concrete documentation network oracle for the witness. -/
def netDocs : String → Option String := fun _ => some "STYLE GUIDE BODY"

/-- Concrete dead network oracle for the witness (never answers). -/
def netDead : String → Option String := fun _ => none

/-- C8 (witness): a fetch at time 0 fills the cache; a repeated fetch at time
100 against a dead network still returns the same content with no request. -/
theorem c8_witness :
    fetch_documentation netDead 100
        (cacheInsert [] "style_guide" ⟨"STYLE GUIDE BODY", 0⟩) "style_guide"
      = (some "STYLE GUIDE BODY",
         cacheInsert [] "style_guide" ⟨"STYLE GUIDE BODY", 0⟩, [])
    ∧ (⟨"STYLE GUIDE BODY", 0⟩ : CacheEntry).content = "STYLE GUIDE BODY" :=
  c8_cache_fresh netDocs netDead 0 100 [] _ "style_guide" "STYLE GUIDE BODY"
    [GITHUB_REPO_BASE ++ "/handbook/style-guide.md"] ⟨"STYLE GUIDE BODY", 0⟩
    (by decide) (by decide) (by decide)

/-- C2: with all three phase-1 reports being errors, the synthesizer's user
prompt embeds each carried-forward error message as a substring, and whenever
the synthesis completion succeeds the synthesizer returns a non-error result;
moreover the orchestrator always proceeds from failed content/style agents to
synthesis (errors flow as data — nothing is raised in the model, matching the
try/except-to-value translation in the source). -/
theorem c2_error_carry (docs : String → Option String) (llm : Llm)
    (net : String → FetchOutcome) (text : String) (md : DocMetadata)
    (a1 e1 a2 e2 a3 e3 r : String)
    (hsynth : llm synthSystemPrompt
        (synthUserPrompt text md [.err a1 e1, .err a2 e2, .err a3 e3]) = .ok r) :
    run_editorial_synthesis llm text md [.err a1 e1, .err a2 e2, .err a3 e3]
      = .ok r [.err a1 e1, .err a2 e2, .err a3 e3]
    ∧ strContains e1
        (synthUserPrompt text md [.err a1 e1, .err a2 e2, .err a3 e3]) = true
    ∧ strContains e2
        (synthUserPrompt text md [.err a1 e1, .err a2 e2, .err a3 e3]) = true
    ∧ strContains e3
        (synthUserPrompt text md [.err a1 e1, .err a2 e2, .err a3 e3]) = true
    ∧ (∀ ec sc r2,
        llm (contentSystemPrompt docs) (contentUserPrompt text md) = .error ec →
        llm (styleSystemPrompt docs) (styleUserPrompt text md) = .error sc →
        llm synthSystemPrompt
          (synthUserPrompt text md
            [.err "Content Analyzer" ec, .err "Style Guide Enforcer" sc,
             (run_link_validation net text).1]) = .ok r2 →
        run_multi_agent_review docs llm net text md
          = .ok r2 [.err "Content Analyzer" ec, .err "Style Guide Enforcer" sc,
                    (run_link_validation net text).1]) := by
  refine ⟨?_, ?_, ?_, ?_, ?_⟩
  · unfold run_editorial_synthesis
    rw [hsynth]
  · unfold strContains synthUserPrompt combinedFindings reportBlock
    simp only [List.foldl, strData_append, List.append_assoc]
    repeat
      first
      | exact containsSub_self_append _ _
      | apply containsSub_append_of
  · unfold strContains synthUserPrompt combinedFindings reportBlock
    simp only [List.foldl, strData_append, List.append_assoc]
    repeat
      first
      | exact containsSub_self_append _ _
      | apply containsSub_append_of
  · unfold strContains synthUserPrompt combinedFindings reportBlock
    simp only [List.foldl, strData_append, List.append_assoc]
    repeat
      first
      | exact containsSub_self_append _ _
      | apply containsSub_append_of
  · intro ec sc r2 hcont hstyle hsyn
    simp only [run_multi_agent_review, run_content_analysis, run_style_analysis,
      run_editorial_synthesis, hcont, hstyle, hsyn]

/-- Language-model oracle simulating an API outage for every agent except the
Senior Editor synthesis call. -/
def llmOutage : Llm := fun sys _ =>
  if strContains "Senior Editor" sys then Except.ok "SYNTHESIZED REVIEW"
  else Except.error "API outage"

/-- Documentation oracle with every remote fetch failing. -/
def docsNone : String → Option String := fun _ => none

/-- C2 (witness): under a simulated outage of both analysis agents, the
orchestrator still returns the successful synthesis carrying the error
reports. -/
theorem c2_witness :
    run_multi_agent_review docsNone llmOutage netAll200 "Body text." ⟨"T", "Guide"⟩
      = .ok "SYNTHESIZED REVIEW"
          [.err "Content Analyzer" "API outage", .err "Style Guide Enforcer" "API outage",
           (run_link_validation netAll200 "Body text.").1] :=
  (c2_error_carry docsNone llmOutage netAll200 "Body text." ⟨"T", "Guide"⟩
      "Content Analyzer" "API outage" "Style Guide Enforcer" "API outage"
      "Link Validator" "API outage" "SYNTHESIZED REVIEW" (by rfl)).2.2.2.2
    "API outage" "API outage" "SYNTHESIZED REVIEW" (by rfl) (by rfl) (by rfl)

/-- C3 (amended): when the follow-up input matches a rewrite keyword but no
prior synthesized review is in session state, the input is routed to the Chat
Assistant — which issues exactly one (chat) language-model call — and the
Rewrite Agent is not invoked.  The source produces the assistant's guidance
(or its error), not a canned no-review message. -/
theorem c3_rewrite_without_review (docs : String → Option String) (llm : Llm)
    (userInput docText : String) (md : DocMetadata)
    (h : isRewriteRequest userInput = true) :
    processChatInput docs llm userInput docText none md
      = (.chatTurn (handle_chat_question docs llm userInput
            (if docText.isEmpty then none else some (takeStr 500 docText))).1,
         [(chatSystemPrompt docs userInput,
           chatUserPrompt userInput
             (if docText.isEmpty then none else some (takeStr 500 docText)))]) := rfl

/-- Language-model oracle answering every request. -/
def llmStub : Llm := fun _ _ => Except.ok "ASSISTANT GUIDANCE"

/-- C3 (counterexample): with the trigger word `rewrite` and no prior review,
the system still issues a language-model call (the chat one), contradicting
the claim that no such call is made. -/
theorem c3_counterexample :
    isRewriteRequest "rewrite" = true
    ∧ (processChatInput docsNone llmStub "rewrite" "Some document text." none
         ⟨"T", "Guide"⟩).2.length = 1
    ∧ (processChatInput docsNone llmStub "rewrite" "Some document text." none
         ⟨"T", "Guide"⟩).1 = .chatTurn (.ok "ASSISTANT GUIDANCE") :=
  ⟨by decide, rfl, rfl⟩

/-- C3 (witness): the amended routing theorem applied to a concrete rewrite
request without a stored review. -/
theorem c3_witness :
    processChatInput docsNone llmStub "please rewrite this" "Doc body" none ⟨"T", "Guide"⟩
      = (.chatTurn (handle_chat_question docsNone llmStub "please rewrite this"
            (if ("Doc body" : String).isEmpty then none
             else some (takeStr 500 "Doc body"))).1,
         [(chatSystemPrompt docsNone "please rewrite this",
           chatUserPrompt "please rewrite this"
             (if ("Doc body" : String).isEmpty then none
              else some (takeStr 500 "Doc body")))]) :=
  c3_rewrite_without_review docsNone llmStub "please rewrite this" "Doc body"
    ⟨"T", "Guide"⟩ (by decide)

end DocManage
